import Mathlib

/-!
Shallow embedding of the `LogosClient` voice-interaction SDK (src/src/types.ts).

The TypeScript class mutates instance fields and performs side effects
(emitting events to subscribers, emitting wire messages on the socket,
scheduling timers, starting/stopping capture resources).  We model the
instance as an explicit `ClientState` record and each method as a pure
function from state to state paired with an ordered trace of effects
(`TraceItem`).  External capabilities (microphone acquisition, the analyser
energy reading, mime-type support, the wall clock `Date.now()`) become
explicit parameters.
-/

namespace Logos

/-- `LogosStatus` from types.ts. -/
inductive LogosStatus
  | DISCONNECTED
  | CONNECTING
  | IDLE
  | LISTENING
  | THINKING
  | SPEAKING
  deriving DecidableEq, Repr

/-- `DeviceRole` from types.ts. -/
inductive DeviceRole
  | doll
  | dev
  | guardian
  deriving DecidableEq, Repr

/-- `PersonaMode` from types.ts. -/
inductive PersonaMode
  | child
  | senior
  deriving DecidableEq, Repr

/-- `Required<VadConfig>`: the resolved VAD configuration stored on the client.
Sensitivity is a JS number used only in integer arithmetic here, modelled as `Int`. -/
structure VadConfig where
  sensitivity : Int
  autoCalibrate : Bool
  timeout : Nat
  deriving DecidableEq, Repr

/-- The pair returned by `getVadThresholds`. -/
structure VadThresholds where
  silenceThreshold : Int
  voiceThreshold : Int
  deriving DecidableEq, Repr

/-- The payload of a `set_settings` message / argument of `updateSettings`
(`Partial<SettingsEventData>`): absent fields are `none`. -/
structure SettingsEventData where
  mode : Option PersonaMode
  vadSensitivity : Option Int
  vadAutoCalibrate : Option Bool
  vadTimeout : Option Nat
  deriving DecidableEq, Repr

/-- The `MediaRecorder` held in `this.mediaRecorder`: whether its state is
`recording`, and its reported `mimeType` property. -/
structure RecorderState where
  recording : Bool
  mimeType : String
  deriving DecidableEq, Repr

/-- Events dispatched to registered handlers via `this.emit(event, ...)`.
Only the payload-bearing constructors needed by the modelled methods are
spelled out; an error event carries the `Error`'s message string. -/
inductive EmittedEvent
  | status (s : LogosStatus)
  | error (message : String)
  | connected
  | disconnected
  | settings (data : SettingsEventData)
  deriving DecidableEq, Repr

/-- Outbound wire messages sent with `this.socket.emit(...)`.  The audio
payload (the `ArrayBuffer` of the assembled blob) is a byte list. -/
inductive WireMsg
  | handshake (role : DeviceRole) (deviceId : String)
  | textInput (text : String) (mode : PersonaMode)
  | audioInput (audio : List Nat) (mimeType : String) (mode : PersonaMode)
  deriving DecidableEq, Repr

/-- Timers scheduled with `setTimeout` (delay in ms). -/
inductive SchedTask
  | startListeningAfter (delayMs : Nat)
  | silenceTimerAfter (delayMs : Nat)
  deriving DecidableEq, Repr

/-- Imperative capture-resource actions performed on external capabilities. -/
inductive CaptureAction
  | clearVadInterval
  | clearSilenceTimer
  | stopRecorder
  | releaseStream
  | startRecorder
  | scheduleVadInterval
  deriving DecidableEq, Repr

/-- One step of the ordered effect trace produced by a method call. -/
inductive TraceItem
  | emitEv (e : EmittedEvent)
  | send (m : WireMsg)
  | schedule (t : SchedTask)
  | act (a : CaptureAction)
  deriving DecidableEq, Repr

/-- The mutable instance state of `LogosClient`.  `hasSocket` models
`this.socket !== null`; `socketConnected` models `this.socket.connected`.
Registered handlers are kept abstractly as identifiers per event name. -/
structure ClientState where
  serverUrl : String
  apiKey : Option String
  deviceId : String
  role : DeviceRole
  mode : PersonaMode
  vadConfig : VadConfig
  autoReconnect : Bool
  reconnectAttempts : Nat
  status : LogosStatus
  hasSocket : Bool
  socketConnected : Bool
  calibratedNoiseFloor : Option Int
  mediaRecorder : Option RecorderState
  audioChunks : List (List Nat)
  hasAudioContext : Bool
  hasAnalyser : Bool
  mediaStream : Bool
  silenceTimerPending : Bool
  voiceDetected : Bool
  recordingStartTime : Nat
  vadIntervalActive : Bool
  eventHandlers : List (String × Nat)
  deriving DecidableEq, Repr

/-- `MIN_SPEECH_DURATION` (ms). -/
def MIN_SPEECH_DURATION : Nat := 400

/-- `private setStatus(status)`: store and emit only when the value changed. -/
def setStatus (c : ClientState) (s : LogosStatus) : ClientState × List TraceItem :=
  if c.status ≠ s then
    ({ c with status := s }, [TraceItem.emitEv (EmittedEvent.status s)])
  else
    (c, [])

/-- `private getVadThresholds()`. -/
def getVadThresholds (c : ClientState) : VadThresholds :=
  let sensitivity := c.vadConfig.sensitivity
  if ¬ c.vadConfig.autoCalibrate then
    let baseThreshold := max 5 (35 - sensitivity * 3)
    { silenceThreshold := baseThreshold, voiceThreshold := baseThreshold + 5 }
  else
    let noiseFloor := c.calibratedNoiseFloor.getD 10
    let margin := 15
    { silenceThreshold := noiseFloor + margin, voiceThreshold := noiseFloor + margin + 5 }

/-- `updateSettings(settings)`: apply exactly the present fields.  (`if
(settings.mode)` is JS truthiness, but a present `PersonaMode` string is
always truthy, so presence is the test for every field.) -/
def updateSettings (c : ClientState) (s : SettingsEventData) : ClientState :=
  let c := match s.mode with
    | some m => { c with mode := m }
    | none => c
  let c := match s.vadSensitivity with
    | some v => { c with vadConfig := { c.vadConfig with sensitivity := v } }
    | none => c
  let c := match s.vadAutoCalibrate with
    | some b => { c with vadConfig := { c.vadConfig with autoCalibrate := b } }
    | none => c
  let c := match s.vadTimeout with
    | some t => { c with vadConfig := { c.vadConfig with timeout := t } }
    | none => c
  c

/-- The `error` socket handler: emit an error event, touch nothing else. -/
def onServerError (c : ClientState) (message : String) : ClientState × List TraceItem :=
  (c, [TraceItem.emitEv (EmittedEvent.error message)])

/-- The `auth_error` socket handler: status DISCONNECTED, then an error
event with the template string from the source. -/
def onAuthError (c : ClientState) (code message : String) : ClientState × List TraceItem :=
  let r := setStatus c LogosStatus.DISCONNECTED
  (r.1, r.2 ++ [TraceItem.emitEv
    (EmittedEvent.error ("Auth failed: " ++ message ++ " (" ++ code ++ ")"))])

/-- `connect()`: no-op when the socket exists and is connected; otherwise set
status CONNECTING and create the socket. -/
def connect (c : ClientState) : ClientState × List TraceItem :=
  if c.hasSocket && c.socketConnected then
    (c, [])
  else
    let r := setStatus c LogosStatus.CONNECTING
    ({ r.1 with hasSocket := true }, r.2)

/-- `stopListening()`: clear the VAD interval, clear the pending silence
timer, stop the recorder when recording, release the media stream — in that
order. -/
def stopListening (c : ClientState) : ClientState × List TraceItem :=
  let r1 : ClientState × List TraceItem :=
    if c.vadIntervalActive then
      ({ c with vadIntervalActive := false }, [TraceItem.act CaptureAction.clearVadInterval])
    else (c, [])
  let r2 : ClientState × List TraceItem :=
    if r1.1.silenceTimerPending then
      ({ r1.1 with silenceTimerPending := false }, [TraceItem.act CaptureAction.clearSilenceTimer])
    else (r1.1, [])
  let r3 : ClientState × List TraceItem :=
    match r2.1.mediaRecorder with
    | some rec =>
      if rec.recording then
        ({ r2.1 with mediaRecorder := some { rec with recording := false } },
         [TraceItem.act CaptureAction.stopRecorder])
      else (r2.1, [])
    | none => (r2.1, [])
  let r4 : ClientState × List TraceItem :=
    if r3.1.mediaStream then
      ({ r3.1 with mediaStream := false }, [TraceItem.act CaptureAction.releaseStream])
    else (r3.1, [])
  (r4.1, r1.2 ++ r2.2 ++ r3.2 ++ r4.2)

/-- `private getSupportedMimeType()`: first supported entry of the fixed
candidate list, else the empty string.  Which types the browser supports is
external, so it is a parameter. -/
def getSupportedMimeType (supported : String → Bool) : String :=
  let types := ["audio/webm;codecs=opus", "audio/webm", "audio/mp4", "audio/ogg", "audio/wav"]
  (types.find? supported).getD ""

/-- `startListening()`.  `micOk` models whether `getUserMedia` resolves
(permission granted); on rejection nothing before the `try` body's first
await has mutated the instance.  `supported` feeds `getSupportedMimeType`;
the recorder's reported mime type is taken to be the requested one. -/
def startListening (c : ClientState) (micOk : Bool) (supported : String → Bool) :
    ClientState × List TraceItem :=
  if ¬ (c.hasSocket && c.socketConnected) then
    (c, [])
  else if c.status = LogosStatus.LISTENING then
    (c, [])
  else if ¬ micOk then
    let r := setStatus c LogosStatus.IDLE
    (r.1, TraceItem.emitEv (EmittedEvent.error "Microphone access denied") :: r.2)
  else
    let c := { c with mediaStream := true, hasAudioContext := true, hasAnalyser := true,
                      voiceDetected := false, recordingStartTime := 0 }
    let mimeType := getSupportedMimeType supported
    let c := { c with mediaRecorder := some { recording := true, mimeType := mimeType },
                      audioChunks := [] }
    let r := setStatus c LogosStatus.LISTENING
    ({ r.1 with vadIntervalActive := true },
     TraceItem.act CaptureAction.startRecorder :: r.2
       ++ [TraceItem.act CaptureAction.scheduleVadInterval])

/-- `disconnect()`. -/
def disconnect (c : ClientState) : ClientState × List TraceItem :=
  let r1 := stopListening c
  let c2 := { r1.1 with hasSocket := false, socketConnected := false }
  let r2 := setStatus c2 LogosStatus.DISCONNECTED
  (r2.1, r1.2 ++ r2.2)

/-- `sendText(text)`. -/
def sendText (c : ClientState) (text : String) : ClientState × List TraceItem :=
  if ¬ (c.hasSocket && c.socketConnected) then
    (c, [])
  else
    (c, [TraceItem.send (WireMsg.textInput text c.mode)])

/-- The body of the one-shot silence timer scheduled inside
`detectVoiceActivity` (lines 503-513): at expiry the handle is still stored
in `this.silenceTimeout`.  `now` is `Date.now()` at expiry. -/
def onSilenceTimerFired (c : ClientState) (now : Nat) : ClientState × List TraceItem :=
  let speechDuration := now - c.recordingStartTime
  if speechDuration ≥ MIN_SPEECH_DURATION then
    stopListening c
  else
    ({ c with voiceDetected := false, silenceTimerPending := false }, [])

/-- One `detectVoiceActivity()` tick.  `average` is the mean of the byte
frequency data (a JS float; only its order against the integer thresholds
matters, so it is taken as `Int`).  `now` is `Date.now()`. -/
def detectVoiceActivity (c : ClientState) (average : Int) (now : Nat) :
    ClientState × List TraceItem :=
  if ¬ c.hasAnalyser then
    (c, [])
  else
    let th := getVadThresholds c
    let r1 : ClientState × List TraceItem :=
      if average > th.voiceThreshold then
        let c1 := if ¬ c.voiceDetected then
            { c with voiceDetected := true, recordingStartTime := now }
          else c
        if c1.silenceTimerPending then
          ({ c1 with silenceTimerPending := false }, [TraceItem.act CaptureAction.clearSilenceTimer])
        else (c1, [])
      else (c, [])
    if average < th.silenceThreshold ∧ r1.1.voiceDetected ∧ ¬ r1.1.silenceTimerPending then
      ({ r1.1 with silenceTimerPending := true },
       r1.2 ++ [TraceItem.schedule (SchedTask.silenceTimerAfter c.vadConfig.timeout)])
    else
      (r1.1, r1.2)

/-- The blob mime type chosen in `handleRecordingStop`:
`this.mediaRecorder?.mimeType || 'audio/webm'` (the empty string is falsy). -/
def blobMimeType (c : ClientState) : String :=
  let m := (c.mediaRecorder.map RecorderState.mimeType).getD ""
  if m = "" then "audio/webm" else m

/-- The bytes of `new Blob(this.audioChunks)`: the chunks concatenated. -/
def assembledAudio (c : ClientState) : List Nat :=
  c.audioChunks.flatten

/-- `private handleRecordingStop()` (the recorder's `onstop`).  `now` is
`Date.now()` at finalize time. -/
def handleRecordingStop (c : ClientState) (now : Nat) : ClientState × List TraceItem :=
  let mimeType := blobMimeType c
  let audioBlob := assembledAudio c
  let speechDuration := now - c.recordingStartTime
  if c.voiceDetected ∧ audioBlob.length > 2000 ∧ speechDuration ≥ MIN_SPEECH_DURATION then
    let r := setStatus c LogosStatus.THINKING
    let sendTrace : List TraceItem :=
      if r.1.hasSocket then [TraceItem.send (WireMsg.audioInput audioBlob mimeType r.1.mode)]
      else []
    (r.1, r.2 ++ sendTrace)
  else
    let r := setStatus c LogosStatus.IDLE
    (r.1, r.2 ++ [TraceItem.schedule (SchedTask.startListeningAfter 500)])

/-- The wire messages of a trace, in order. -/
def sentMsgs (tr : List TraceItem) : List WireMsg :=
  tr.filterMap fun t => match t with
    | TraceItem.send m => some m
    | _ => none

/-- The scheduled timers of a trace, in order. -/
def schedTasks (tr : List TraceItem) : List SchedTask :=
  tr.filterMap fun t => match t with
    | TraceItem.schedule s => some s
    | _ => none

/-- The capture-resource actions of a trace, in order. -/
def captureActs (tr : List TraceItem) : List CaptureAction :=
  tr.filterMap fun t => match t with
    | TraceItem.act a => some a
    | _ => none

/-- The error-event messages of a trace, in order. -/
def errorEvents (tr : List TraceItem) : List String :=
  tr.filterMap fun t => match t with
    | TraceItem.emitEv (EmittedEvent.error m) => some m
    | _ => none

/-- The status-event values of a trace, in order. -/
def statusEvents (tr : List TraceItem) : List LogosStatus :=
  tr.filterMap fun t => match t with
    | TraceItem.emitEv (EmittedEvent.status s) => some s
    | _ => none

/-- A freshly constructed client (defaults of the constructor with a fixed
device id). -/
def baseState : ClientState where
  serverUrl := "http://localhost:8000"
  apiKey := none
  deviceId := "logos_test_device"
  role := DeviceRole.doll
  mode := PersonaMode.child
  vadConfig := { sensitivity := 5, autoCalibrate := true, timeout := 700 }
  autoReconnect := true
  reconnectAttempts := 5
  status := LogosStatus.DISCONNECTED
  hasSocket := false
  socketConnected := false
  calibratedNoiseFloor := none
  mediaRecorder := none
  audioChunks := []
  hasAudioContext := false
  hasAnalyser := false
  mediaStream := false
  silenceTimerPending := false
  voiceDetected := false
  recordingStartTime := 0
  vadIntervalActive := false
  eventHandlers := []

/-- A client mid-capture whose socket has been torn down (`disconnect()` sets
`this.socket = null` while the recorder's `onstop` is still pending), with a
qualifying utterance accumulated. -/
def nullSocketCapture : ClientState :=
  { baseState with
      status := LogosStatus.DISCONNECTED
      hasSocket := false
      socketConnected := false
      voiceDetected := true
      recordingStartTime := 0
      audioChunks := [List.replicate 2001 0]
      mediaRecorder := some { recording := false, mimeType := "audio/webm" } }

/-- A client whose socket is established and connected, sitting at IDLE. -/
def connectedIdle : ClientState :=
  { baseState with
      status := LogosStatus.IDLE
      hasSocket := true
      socketConnected := true }

/-- A client actively listening: recorder running, VAD interval scheduled,
a silence timer pending, voice detected at t = 0. -/
def activeCapture : ClientState :=
  { baseState with
      status := LogosStatus.LISTENING
      hasSocket := true
      socketConnected := true
      mediaRecorder := some { recording := true, mimeType := "audio/webm" }
      mediaStream := true
      hasAudioContext := true
      hasAnalyser := true
      silenceTimerPending := true
      voiceDetected := true
      recordingStartTime := 0
      vadIntervalActive := true }

/-- A connected client with `autoCalibrate` off at the default sensitivity. -/
def manualVadClient : ClientState :=
  { baseState with
      vadConfig := { sensitivity := 5, autoCalibrate := false, timeout := 700 } }

/-- An active capture that has accumulated a qualifying utterance
(2001 bytes, voice detected at t = 0). -/
def qualifyingCapture : ClientState :=
  { activeCapture with audioChunks := [List.replicate 2001 0] }

@[simp] theorem errorEvents_nil : errorEvents [] = [] := rfl

@[simp] theorem errorEvents_append (a b : List TraceItem) :
    errorEvents (a ++ b) = errorEvents a ++ errorEvents b := by
  simp [errorEvents]

@[simp] theorem errorEvents_cons_status (s : LogosStatus) (tr : List TraceItem) :
    errorEvents (TraceItem.emitEv (EmittedEvent.status s) :: tr) = errorEvents tr := rfl

@[simp] theorem errorEvents_cons_error (m : String) (tr : List TraceItem) :
    errorEvents (TraceItem.emitEv (EmittedEvent.error m) :: tr) = m :: errorEvents tr := rfl

@[simp] theorem errorEvents_cons_send (m : WireMsg) (tr : List TraceItem) :
    errorEvents (TraceItem.send m :: tr) = errorEvents tr := rfl

@[simp] theorem errorEvents_cons_schedule (t : SchedTask) (tr : List TraceItem) :
    errorEvents (TraceItem.schedule t :: tr) = errorEvents tr := rfl

@[simp] theorem errorEvents_cons_act (a : CaptureAction) (tr : List TraceItem) :
    errorEvents (TraceItem.act a :: tr) = errorEvents tr := rfl

@[simp] theorem statusEvents_nil : statusEvents [] = [] := rfl

@[simp] theorem statusEvents_append (a b : List TraceItem) :
    statusEvents (a ++ b) = statusEvents a ++ statusEvents b := by
  simp [statusEvents]

@[simp] theorem statusEvents_cons_status (s : LogosStatus) (tr : List TraceItem) :
    statusEvents (TraceItem.emitEv (EmittedEvent.status s) :: tr) = s :: statusEvents tr := rfl

@[simp] theorem statusEvents_cons_error (m : String) (tr : List TraceItem) :
    statusEvents (TraceItem.emitEv (EmittedEvent.error m) :: tr) = statusEvents tr := rfl

@[simp] theorem statusEvents_cons_send (m : WireMsg) (tr : List TraceItem) :
    statusEvents (TraceItem.send m :: tr) = statusEvents tr := rfl

@[simp] theorem statusEvents_cons_schedule (t : SchedTask) (tr : List TraceItem) :
    statusEvents (TraceItem.schedule t :: tr) = statusEvents tr := rfl

@[simp] theorem statusEvents_cons_act (a : CaptureAction) (tr : List TraceItem) :
    statusEvents (TraceItem.act a :: tr) = statusEvents tr := rfl

@[simp] theorem sentMsgs_nil : sentMsgs [] = [] := rfl

@[simp] theorem sentMsgs_append (a b : List TraceItem) :
    sentMsgs (a ++ b) = sentMsgs a ++ sentMsgs b := by
  simp [sentMsgs]

@[simp] theorem sentMsgs_cons_status (s : LogosStatus) (tr : List TraceItem) :
    sentMsgs (TraceItem.emitEv (EmittedEvent.status s) :: tr) = sentMsgs tr := rfl

@[simp] theorem sentMsgs_cons_error (m : String) (tr : List TraceItem) :
    sentMsgs (TraceItem.emitEv (EmittedEvent.error m) :: tr) = sentMsgs tr := rfl

@[simp] theorem sentMsgs_cons_send (m : WireMsg) (tr : List TraceItem) :
    sentMsgs (TraceItem.send m :: tr) = m :: sentMsgs tr := rfl

@[simp] theorem sentMsgs_cons_schedule (t : SchedTask) (tr : List TraceItem) :
    sentMsgs (TraceItem.schedule t :: tr) = sentMsgs tr := rfl

@[simp] theorem sentMsgs_cons_act (a : CaptureAction) (tr : List TraceItem) :
    sentMsgs (TraceItem.act a :: tr) = sentMsgs tr := rfl

@[simp] theorem schedTasks_nil : schedTasks [] = [] := rfl

@[simp] theorem schedTasks_append (a b : List TraceItem) :
    schedTasks (a ++ b) = schedTasks a ++ schedTasks b := by
  simp [schedTasks]

@[simp] theorem schedTasks_cons_status (s : LogosStatus) (tr : List TraceItem) :
    schedTasks (TraceItem.emitEv (EmittedEvent.status s) :: tr) = schedTasks tr := rfl

@[simp] theorem schedTasks_cons_error (m : String) (tr : List TraceItem) :
    schedTasks (TraceItem.emitEv (EmittedEvent.error m) :: tr) = schedTasks tr := rfl

@[simp] theorem schedTasks_cons_send (m : WireMsg) (tr : List TraceItem) :
    schedTasks (TraceItem.send m :: tr) = schedTasks tr := rfl

@[simp] theorem schedTasks_cons_schedule (t : SchedTask) (tr : List TraceItem) :
    schedTasks (TraceItem.schedule t :: tr) = t :: schedTasks tr := rfl

@[simp] theorem schedTasks_cons_act (a : CaptureAction) (tr : List TraceItem) :
    schedTasks (TraceItem.act a :: tr) = schedTasks tr := rfl

@[simp] theorem captureActs_nil : captureActs [] = [] := rfl

@[simp] theorem captureActs_append (a b : List TraceItem) :
    captureActs (a ++ b) = captureActs a ++ captureActs b := by
  simp [captureActs]

@[simp] theorem captureActs_cons_status (s : LogosStatus) (tr : List TraceItem) :
    captureActs (TraceItem.emitEv (EmittedEvent.status s) :: tr) = captureActs tr := rfl

@[simp] theorem captureActs_cons_error (m : String) (tr : List TraceItem) :
    captureActs (TraceItem.emitEv (EmittedEvent.error m) :: tr) = captureActs tr := rfl

@[simp] theorem captureActs_cons_send (m : WireMsg) (tr : List TraceItem) :
    captureActs (TraceItem.send m :: tr) = captureActs tr := rfl

@[simp] theorem captureActs_cons_schedule (t : SchedTask) (tr : List TraceItem) :
    captureActs (TraceItem.schedule t :: tr) = captureActs tr := rfl

@[simp] theorem captureActs_cons_act (a : CaptureAction) (tr : List TraceItem) :
    captureActs (TraceItem.act a :: tr) = a :: captureActs tr := rfl

/-- C2: with `autoCalibrate` off, `getVadThresholds` returns
`silenceThreshold = max 5 (35 - sensitivity*3)` and
`voiceThreshold = silenceThreshold + 5` (so `silenceThreshold ≥ 5` for every
sensitivity); with `autoCalibrate` on, it returns `noiseFloor + 15` and
`noiseFloor + 20` where the noise floor defaults to 10 when none has been
calibrated (hence 25 and 30 by default). -/
theorem getVadThresholds_spec (c : ClientState) :
    (c.vadConfig.autoCalibrate = false →
      (getVadThresholds c).silenceThreshold = max 5 (35 - c.vadConfig.sensitivity * 3) ∧
      (getVadThresholds c).voiceThreshold = (getVadThresholds c).silenceThreshold + 5 ∧
      5 ≤ (getVadThresholds c).silenceThreshold) ∧
    (c.vadConfig.autoCalibrate = true →
      (getVadThresholds c).silenceThreshold = c.calibratedNoiseFloor.getD 10 + 15 ∧
      (getVadThresholds c).voiceThreshold = c.calibratedNoiseFloor.getD 10 + 20) ∧
    (c.vadConfig.autoCalibrate = true → c.calibratedNoiseFloor = none →
      (getVadThresholds c).silenceThreshold = 25 ∧
      (getVadThresholds c).voiceThreshold = 30) := by
  refine ⟨fun h => ?_, fun h => ?_, fun h hn => ?_⟩
  · refine ⟨?_, ?_, ?_⟩ <;> simp [getVadThresholds, h]
  · constructor
    · simp [getVadThresholds, h]
    · simp [getVadThresholds, h]
      omega
  · refine ⟨?_, ?_⟩ <;> simp [getVadThresholds, h, hn]

/-- C2 witness: at `autoCalibrate = false`, sensitivity 5, the thresholds are
a (20, 25) pair satisfying the stated relations. -/
theorem getVadThresholds_spec_witness :
    (getVadThresholds manualVadClient).voiceThreshold =
      (getVadThresholds manualVadClient).silenceThreshold + 5 ∧
    5 ≤ (getVadThresholds manualVadClient).silenceThreshold :=
  ((getVadThresholds_spec manualVadClient).1 rfl).2

/-- C5: `setStatus` emits a status event exactly when the requested value
differs from the current one, the stored status afterwards equals the
requested value, and requesting the same status twice from a different
initial value produces exactly one status event. -/
theorem setStatus_spec (c : ClientState) (s : LogosStatus) :
    ((setStatus c s).2 =
      if c.status = s then [] else [TraceItem.emitEv (EmittedEvent.status s)]) ∧
    (setStatus c s).1.status = s ∧
    (c.status ≠ s →
      (setStatus c s).2 ++ (setStatus (setStatus c s).1 s).2 =
        [TraceItem.emitEv (EmittedEvent.status s)]) := by
  by_cases h : c.status = s <;> simp [setStatus, h]

/-- C5 witness: from DISCONNECTED, requesting IDLE twice yields exactly one
status event. -/
theorem setStatus_spec_witness :
    (setStatus baseState LogosStatus.IDLE).2 ++
      (setStatus (setStatus baseState LogosStatus.IDLE).1 LogosStatus.IDLE).2 =
      [TraceItem.emitEv (EmittedEvent.status LogosStatus.IDLE)] :=
  (setStatus_spec baseState LogosStatus.IDLE).2.2 (by decide)

/-- C6: the `auth_error{code, message}` handler always leaves the status
DISCONNECTED and emits exactly one error event, whose message contains both
the received message and the received code. -/
theorem onAuthError_spec (c : ClientState) (code message : String) :
    (onAuthError c code message).1.status = LogosStatus.DISCONNECTED ∧
    errorEvents (onAuthError c code message).2 =
      ["Auth failed: " ++ message ++ " (" ++ code ++ ")"] ∧
    ∃ p q r, "Auth failed: " ++ message ++ " (" ++ code ++ ")" =
      p ++ message ++ q ++ code ++ r := by
  refine ⟨?_, ?_, "Auth failed: ", " (", ")", ?_⟩
  · by_cases h : c.status = LogosStatus.DISCONNECTED <;>
      simp [onAuthError, setStatus, h]
  · by_cases h : c.status = LogosStatus.DISCONNECTED <;>
      simp [onAuthError, setStatus, h]
  · simp [String.append_assoc]

/-- C8: the `error{message}` handler emits exactly the one error event and
changes nothing else: the whole client state (in particular the status) is
unchanged and no status event is emitted. -/
theorem onServerError_spec (c : ClientState) (message : String) :
    (onServerError c message).1 = c ∧
    (onServerError c message).2 = [TraceItem.emitEv (EmittedEvent.error message)] ∧
    statusEvents (onServerError c message).2 = [] :=
  ⟨rfl, rfl, rfl⟩

/-- C10: `updateSettings` merges exactly the present fields of its argument
into `mode` and the VAD configuration and leaves every other component of the
client state unchanged. -/
theorem updateSettings_spec (c : ClientState) (s : SettingsEventData) :
    updateSettings c s = { c with
      mode := s.mode.getD c.mode,
      vadConfig := {
        sensitivity := s.vadSensitivity.getD c.vadConfig.sensitivity,
        autoCalibrate := s.vadAutoCalibrate.getD c.vadConfig.autoCalibrate,
        timeout := s.vadTimeout.getD c.vadConfig.timeout } } := by
  obtain ⟨m, vs, va, vt⟩ := s
  cases m <;> cases vs <;> cases va <;> cases vt <;> rfl

/-- C7 counterexample: from an already-connected client sitting at IDLE,
`connect()` returns early and the status does not become CONNECTING. -/
theorem connect_alreadyConnected_cex :
    connectedIdle.status = LogosStatus.IDLE ∧
    (connect connectedIdle).1.status ≠ LogosStatus.CONNECTING := by
  decide

/-- C7 (amended): when the socket is not already connected, `connect()` sets
the status to CONNECTING, whatever the prior state. -/
theorem connect_spec (c : ClientState)
    (h : (c.hasSocket && c.socketConnected) = false) :
    (connect c).1.status = LogosStatus.CONNECTING := by
  by_cases hs : c.status = LogosStatus.CONNECTING <;>
    simp [connect, setStatus, h, hs]

/-- C7 witness: a fresh client has no socket, and `connect()` moves it to
CONNECTING. -/
theorem connect_spec_witness :
    (connect baseState).1.status = LogosStatus.CONNECTING :=
  connect_spec baseState (by decide)

/-- C4: with capture fully active, `stopListening` performs exactly the four
release actions in order — VAD interval and silence timer cancelled before
the recorder is stopped and the stream released — and an immediately
repeated call performs no action and leaves the state unchanged. -/
theorem stopListening_spec (c : ClientState) (rec : RecorderState)
    (h1 : c.vadIntervalActive = true) (h2 : c.silenceTimerPending = true)
    (h3 : c.mediaRecorder = some rec) (h4 : rec.recording = true)
    (h5 : c.mediaStream = true) :
    (stopListening c).2 =
      [TraceItem.act CaptureAction.clearVadInterval,
       TraceItem.act CaptureAction.clearSilenceTimer,
       TraceItem.act CaptureAction.stopRecorder,
       TraceItem.act CaptureAction.releaseStream] ∧
    (stopListening (stopListening c).1).2 = [] ∧
    (stopListening (stopListening c).1).1 = (stopListening c).1 := by
  obtain ⟨recording, mt⟩ := rec
  simp only at h4
  subst h4
  refine ⟨?_, ?_, ?_⟩ <;> simp [stopListening, h1, h2, h3, h5]

/-- C4 witness: the double-call property at a concrete fully-active capture
state. -/
theorem stopListening_spec_witness :
    (stopListening activeCapture).2 =
      [TraceItem.act CaptureAction.clearVadInterval,
       TraceItem.act CaptureAction.clearSilenceTimer,
       TraceItem.act CaptureAction.stopRecorder,
       TraceItem.act CaptureAction.releaseStream] ∧
    (stopListening (stopListening activeCapture).1).2 = [] ∧
    (stopListening (stopListening activeCapture).1).1 = (stopListening activeCapture).1 :=
  stopListening_spec activeCapture { recording := true, mimeType := "audio/webm" }
    rfl rfl rfl rfl rfl

/-- C3: when the silence timer fires with the voice-detected flag set, a
speech duration below MIN_SPEECH_DURATION only clears the voice-detected
flag and the timer handle — no trace action, recorder and VAD interval
untouched; a duration of at least MIN_SPEECH_DURATION runs `stopListening`
(which triggers finalize via the recorder stop). -/
theorem silenceTimer_spec (c : ClientState) (now : Nat)
    (_hv : c.voiceDetected = true) :
    (now - c.recordingStartTime < MIN_SPEECH_DURATION →
      (onSilenceTimerFired c now).1 =
        { c with voiceDetected := false, silenceTimerPending := false } ∧
      (onSilenceTimerFired c now).2 = [] ∧
      (onSilenceTimerFired c now).1.mediaRecorder = c.mediaRecorder ∧
      (onSilenceTimerFired c now).1.vadIntervalActive = c.vadIntervalActive) ∧
    (MIN_SPEECH_DURATION ≤ now - c.recordingStartTime →
      onSilenceTimerFired c now = stopListening c) := by
  constructor
  · intro h
    have hn : ¬ (now - c.recordingStartTime ≥ MIN_SPEECH_DURATION) := by omega
    refine ⟨?_, ?_, ?_, ?_⟩ <;> simp [onSilenceTimerFired, if_neg hn]
  · intro h
    simp only [onSilenceTimerFired, if_pos h]

/-- C3 witness: timer firing at 300 ms of speech in an active capture clears
the flags without stopping anything. -/
theorem silenceTimer_spec_witness :
    (onSilenceTimerFired activeCapture 300).1 =
      { activeCapture with voiceDetected := false, silenceTimerPending := false } ∧
    (onSilenceTimerFired activeCapture 300).2 = [] ∧
    (onSilenceTimerFired activeCapture 300).1.mediaRecorder = activeCapture.mediaRecorder ∧
    (onSilenceTimerFired activeCapture 300).1.vadIntervalActive =
      activeCapture.vadIntervalActive :=
  (silenceTimer_spec activeCapture 300 rfl).1 (by decide)

/-- C9: `startListening` while connected and not LISTENING, with microphone
permission denied: exactly one error event, status set to IDLE, and no other
state change, no capture action, no wire message, no scheduled task. -/
theorem startListening_micDenied_spec (c : ClientState) (supported : String → Bool)
    (hs : (c.hasSocket && c.socketConnected) = true)
    (hl : c.status ≠ LogosStatus.LISTENING) :
    (startListening c false supported).1 = { c with status := LogosStatus.IDLE } ∧
    errorEvents (startListening c false supported).2 = ["Microphone access denied"] ∧
    sentMsgs (startListening c false supported).2 = [] ∧
    captureActs (startListening c false supported).2 = [] ∧
    schedTasks (startListening c false supported).2 = [] := by
  obtain ⟨su, ak, di, ro, mo, vc, ar, ra, st, hsk, sc, nf, mr, ach, hac, han, ms, stp,
    vd, rst, via, eh⟩ := c
  by_cases hi : st = LogosStatus.IDLE <;>
    refine ⟨?_, ?_, ?_, ?_, ?_⟩ <;>
    simp_all [startListening, setStatus]

/-- C9 witness: a connected idle client with permission denied. -/
theorem startListening_micDenied_spec_witness :
    (startListening connectedIdle false (fun _ => false)).1 =
      { connectedIdle with status := LogosStatus.IDLE } ∧
    errorEvents (startListening connectedIdle false (fun _ => false)).2 =
      ["Microphone access denied"] ∧
    sentMsgs (startListening connectedIdle false (fun _ => false)).2 = [] ∧
    captureActs (startListening connectedIdle false (fun _ => false)).2 = [] ∧
    schedTasks (startListening connectedIdle false (fun _ => false)).2 = [] :=
  startListening_micDenied_spec connectedIdle (fun _ => false) (by decide) (by decide)

/-- C1 counterexample: with the socket object null (as after `disconnect()`
while the recorder's `onstop` is still pending), finalize at 500 ms with
voice detected and 2001 assembled bytes satisfies the claim's transmit
condition and sets THINKING, yet transmits nothing. -/
theorem handleRecordingStop_nullSocket_cex :
    nullSocketCapture.voiceDetected = true ∧
    2000 < (assembledAudio nullSocketCapture).length ∧
    MIN_SPEECH_DURATION ≤ 500 - nullSocketCapture.recordingStartTime ∧
    (handleRecordingStop nullSocketCapture 500).1.status = LogosStatus.THINKING ∧
    sentMsgs (handleRecordingStop nullSocketCapture 500).2 = [] := by
  have hlen : (assembledAudio nullSocketCapture).length = 2001 := by
    simp only [assembledAudio,
      show nullSocketCapture.audioChunks = [List.replicate 2001 0] from rfl,
      List.flatten_cons, List.flatten_nil, List.append_nil, List.length_replicate]
  have hcond : nullSocketCapture.voiceDetected = true ∧
      (assembledAudio nullSocketCapture).length > 2000 ∧
      500 - nullSocketCapture.recordingStartTime ≥ MIN_SPEECH_DURATION :=
    ⟨rfl, by omega, by decide⟩
  refine ⟨rfl, hcond.2.1, hcond.2.2, ?_, ?_⟩
  · simp only [handleRecordingStop]
    rw [if_pos hcond]
    simp [setStatus, show nullSocketCapture.status = LogosStatus.DISCONNECTED from rfl]
  · simp only [handleRecordingStop]
    rw [if_pos hcond]
    simp [setStatus, show nullSocketCapture.status = LogosStatus.DISCONNECTED from rfl,
      show nullSocketCapture.hasSocket = false from rfl]

/-- C1 (amended): on finalize with a non-null socket object: if voice was
detected, the assembled audio exceeds 2000 bytes and the speech duration is
at least MIN_SPEECH_DURATION, the status becomes THINKING and exactly one
`audio_input` message carrying the assembled bytes, the blob mime type and
the current mode is sent, with nothing scheduled; in every other case the
status becomes IDLE, nothing is sent, and a `startListening` re-invocation
is scheduled after 500 ms. -/
theorem handleRecordingStop_spec (c : ClientState) (now : Nat)
    (hsock : c.hasSocket = true) :
    ((c.voiceDetected = true ∧ 2000 < (assembledAudio c).length ∧
        MIN_SPEECH_DURATION ≤ now - c.recordingStartTime) →
      (handleRecordingStop c now).1.status = LogosStatus.THINKING ∧
      sentMsgs (handleRecordingStop c now).2 =
        [WireMsg.audioInput (assembledAudio c) (blobMimeType c) c.mode] ∧
      schedTasks (handleRecordingStop c now).2 = []) ∧
    (¬ (c.voiceDetected = true ∧ 2000 < (assembledAudio c).length ∧
        MIN_SPEECH_DURATION ≤ now - c.recordingStartTime) →
      (handleRecordingStop c now).1.status = LogosStatus.IDLE ∧
      sentMsgs (handleRecordingStop c now).2 = [] ∧
      schedTasks (handleRecordingStop c now).2 =
        [SchedTask.startListeningAfter 500]) := by
  constructor
  · intro h
    by_cases hst : c.status = LogosStatus.THINKING <;>
      refine ⟨?_, ?_, ?_⟩ <;>
      simp [handleRecordingStop, setStatus, h.1, h.2.1, h.2.2, hst, hsock]
  · intro h
    by_cases hst : c.status = LogosStatus.IDLE <;>
      refine ⟨?_, ?_, ?_⟩ <;>
      simp [handleRecordingStop, setStatus, h, hst, hsock]

/-- C1 witness: a qualifying utterance (2001 bytes, 500 ms) on a live
capture with a live socket is transmitted and the status becomes THINKING. -/
theorem handleRecordingStop_spec_witness :
    (handleRecordingStop qualifyingCapture 500).1.status = LogosStatus.THINKING ∧
    sentMsgs (handleRecordingStop qualifyingCapture 500).2 =
      [WireMsg.audioInput (assembledAudio qualifyingCapture)
        (blobMimeType qualifyingCapture) qualifyingCapture.mode] ∧
    schedTasks (handleRecordingStop qualifyingCapture 500).2 = [] :=
  (handleRecordingStop_spec qualifyingCapture 500 rfl).1
    (by
      have hlen : (assembledAudio qualifyingCapture).length = 2001 := by
        simp only [assembledAudio,
          show qualifyingCapture.audioChunks = [List.replicate 2001 0] from rfl,
          List.flatten_cons, List.flatten_nil, List.append_nil, List.length_replicate]
      exact ⟨rfl, by omega, by decide⟩)

end Logos
